import Mathlib

/-!
Shallow embedding of the two-stage control-generation pipeline
(obligation to objective mapping, objective plus context to variant mapping,
tier selection and control assembly) together with the two persistent
registries that back it.

Conventions of the embedding:
- Python strings are Lean `String` values; the string helpers used by the
  source (upper-casing, single-character deletion, slicing, splitting on a
  hyphen, integer parsing, joining) are re-implemented structurally over the
  underlying character list so that every definition evaluates by kernel
  reduction.  Upper-casing is modelled for the ASCII range, which covers
  every identifier the system manipulates.
- Python dicts are association lists with dict update semantics: an insert
  overwrites an existing key in place and otherwise appends at the end,
  which reproduces insertion-ordered iteration.
- The LLM completion service is an external collaborator; it is modelled as
  an oracle function returning the structured response, or `none` for a
  call/parse failure.
- The registry backing store is modelled as the document written by the
  last save.  For the objective registry the document is a JSON value and
  serialization of entities is modelled in full; for the variant registry
  the document is the persisted record list.
- The `applies_if` field of a size variant is a Python expression evaluated
  by a sandboxed `eval` exposing only `employee_count`.  It is embedded as
  an expression tree over comparisons and boolean connectives of
  `employee_count` and numeric literals, with a distinguished ill-formed
  expression whose evaluation raises (the `eval` of a malformed or empty
  condition string, or one naming an unknown variable).
-/

namespace ControlGen

/-! ## String primitives -/

/-- Upper-case a string character by character (ASCII range). -/
def strUpper (s : String) : String := ⟨s.data.map Char.toUpper⟩

/-- Delete every occurrence of one character; models the Python
`str.replace(c, "")` calls of the source, whose pattern is a single
character and whose replacement is empty. -/
def strDelete (c : Char) (s : String) : String :=
  ⟨s.data.filter (fun a => !(a = c))⟩

/-- First `n` characters; models Python slicing `s[:n]`. -/
def strTake (s : String) (n : Nat) : String := ⟨s.data.take n⟩

/-- Drop the first `n` characters; models Python slicing `s[n:]`. -/
def strDrop (s : String) (n : Nat) : String := ⟨s.data.drop n⟩

/-- Does the pattern occur at the start of the string?  Models Python
`str.startswith`. -/
def charsLead : List Char → List Char → Bool
  | [], _ => true
  | _ :: _, [] => false
  | p :: ps, a :: as => p = a && charsLead ps as

def strStartsWith (s pat : String) : Bool := charsLead pat.data s.data

/-- Does the pattern occur at the end of the string?  Models Python
`str.endswith`. -/
def strEndsWith (s pat : String) : Bool :=
  charsLead pat.data.reverse s.data.reverse

/-- Split on a single character; models Python `str.split("-")`, which on
the empty string yields one empty field. -/
def charsSplit (c : Char) : List Char → List (List Char)
  | [] => [[]]
  | a :: rest =>
    let r := charsSplit c rest
    if a = c then [] :: r
    else
      match r with
      | [] => [[a]]
      | g :: gs => (a :: g) :: gs

def strSplitOn (c : Char) (s : String) : List String :=
  (charsSplit c s.data).map (fun l => ⟨l⟩)

/-- Parse a non-empty run of decimal digits. -/
def digitsToNat? (l : List Char) : Option Nat :=
  if l.isEmpty then none
  else
    l.foldl
      (fun acc c =>
        match acc with
        | none => none
        | some n => if c.isDigit then some (n * 10 + (c.toNat - 48)) else none)
      (some 0)

/-- Parse an optionally negated decimal integer; models Python `int(s)` on
the identifier fragments the source feeds it. -/
def strToInt? (s : String) : Option Int :=
  match s.data with
  | '-' :: rest => (digitsToNat? rest).map (fun n => -(n : Int))
  | l => (digitsToNat? l).map (fun n => (n : Int))

/-- Join with a separator; models the Python join method `sep.join(xs)`. -/
def joinSep (sep : String) : List String → String
  | [] => ""
  | [s] => s
  | s :: rest => s ++ sep ++ joinSep sep rest

/-- Concatenation of a list of strings (the repeated `+=` of the
description-building loop). -/
def strJoin : List String → String
  | [] => ""
  | s :: rest => s ++ strJoin rest

/-- Python `max(numbers) if numbers else 0`. -/
def maxOr0 : List Int → Int
  | [] => 0
  | x :: xs => xs.foldl max x

/-! ## Association lists with Python dict semantics -/

/-- Lookup by key, models `d.get(k)` / `d[k]`. -/
def lookupA {V : Type} : List (String × V) → String → Option V
  | [], _ => none
  | (k1, v1) :: rest, k => if k1 = k then some v1 else lookupA rest k

/-- Key membership, models `k in d`. -/
def containsA {V : Type} : List (String × V) → String → Bool
  | [], _ => false
  | (k1, _) :: rest, k => k1 = k || containsA rest k

/-- Update, models `d[k] = v`: overwrite in place, else append at the end. -/
def insertA {V : Type} : List (String × V) → String → V → List (String × V)
  | [], k, v => [(k, v)]
  | (k1, v1) :: rest, k, v =>
    if k1 = k then (k, v) :: rest else (k1, v1) :: insertA rest k v

/-! ## Data model (src/agent_sdk/models/compliance.py) -/

structure Obligation where
  obligation_id : String
  obligation : String
  framework_source : String
  clause_source : String
  domain : Option String
  impact : Option String
deriving DecidableEq

structure ControlObjective where
  objective_id : String
  objective_name : String
  description : String
  domain : String
  intent : Option String
  linked_obligation_ids : List String
  rationale : Option String
deriving DecidableEq

/-- Comparison operators of the restricted condition language. -/
inductive CmpOp
  | lt | le | gt | ge | eqOp | neOp
deriving DecidableEq

/-- Arithmetic atoms of the condition language: a literal or the single
variable exposed by the sandboxed evaluation context. -/
inductive AExpr
  | num (n : Int)
  | employee_count
deriving DecidableEq

/-- Condition expressions occurring in an `applies_if` string.
`illFormed` stands for any condition whose `eval` raises (syntax error,
empty string, unknown name). -/
inductive BExpr
  | cmp (op : CmpOp) (a b : AExpr)
  | and (a b : BExpr)
  | or (a b : BExpr)
  | illFormed
deriving DecidableEq

/-- One entry of `ControlVariant.variants`: in the source a plain dict, so
every field other than `variant_type` is read with `.get` and may be
absent.  `variant_type` is kept mandatory: the builder indexes it without a
default, and its presence also makes the dict non-empty (truthy). -/
structure SizeVariant where
  variant_type : String
  applies_if : BExpr
  description_additions : Option String
  evidence_requirements : List String
  review_interval : Option String
deriving DecidableEq

structure ControlVariant where
  variant_id : String
  objective_id : String
  variant_name : String
  base_description : String
  domain : String
  variants : List SizeVariant
  jurisdiction_requirements : List (String × List String)
deriving DecidableEq

structure CompanyContext where
  company_name : String
  employee_count : Option Int
  industry : String
  jurisdictions : List String
  risk_appetite : Option String
  compliance_maturity : Option String
deriving DecidableEq

structure Control where
  control_id : String
  control_name : String
  control_description : String
  linked_obligation_ids : String
  domain : Option String
  expected_evidence : Option String
  review_interval : Option String
  impact : Option String
deriving DecidableEq

/-! ## Structured LLM responses (src/agent_sdk/models/llm_responses.py) -/

structure NewObjectiveData where
  objective_name : String
  description : String
  domain : String
  intent : String
  rationale : String
deriving DecidableEq

structure ObligationMappingResponse where
  analysis : String
  matched_objective_ids : List String
  new_objectives : List NewObjectiveData
  reasoning : String
deriving DecidableEq

/-- Size-variant payload of a Stage-2 response; every field is required by
the response schema. -/
structure SizeVariantData where
  variant_type : String
  applies_if : BExpr
  description_additions : String
  evidence_requirements : List String
  review_interval : String
deriving DecidableEq

/-- `model_dump` of a size-variant payload: the stored dict has every key
present. -/
def SizeVariantData.model_dump (d : SizeVariantData) : SizeVariant :=
  { variant_type := d.variant_type
  , applies_if := d.applies_if
  , description_additions := some d.description_additions
  , evidence_requirements := d.evidence_requirements
  , review_interval := some d.review_interval }

structure NewVariantData where
  variant_name : String
  base_description : String
  variants : List SizeVariantData
  jurisdiction_requirements : List (String × List String)
deriving DecidableEq

structure VariantMappingResponse where
  analysis : String
  matched_variant_ids : List String
  new_variants : List NewVariantData
  reasoning : String
deriving DecidableEq

/-! ## JSON documents for the objective backing store -/

/-- JSON values in the fragment the objective store uses. -/
inductive Json
  | null
  | str (s : String)
  | arr (xs : List Json)
  | obj (fields : List (String × Json))

def dumpOptStr : Option String → Json
  | none => .null
  | some s => .str s

/-- `ControlObjective.model_dump()`: all fields, in declaration order. -/
def ControlObjective.model_dump (o : ControlObjective) : Json :=
  .obj
    [ ("objective_id", .str o.objective_id)
    , ("objective_name", .str o.objective_name)
    , ("description", .str o.description)
    , ("domain", .str o.domain)
    , ("intent", dumpOptStr o.intent)
    , ("linked_obligation_ids", .arr (o.linked_obligation_ids.map Json.str))
    , ("rationale", dumpOptStr o.rationale) ]

/-- Validation of a `List[str]` field. -/
def parseStrList : List Json → Option (List String)
  | [] => some []
  | .str s :: rest => (parseStrList rest).map (fun l => s :: l)
  | _ :: _ => none

/-- Validation of an `Optional[str]` field with default `None`: an absent
key or a JSON null gives `none`, a string gives the string, anything else
is a validation error. -/
def parseOptStrField : Option Json → Option (Option String)
  | none => some none
  | some .null => some none
  | some (.str s) => some (some s)
  | some _ => none

/-- `ControlObjective(**obj_data)`: pydantic validation of one record.
Required string fields must be present as strings; unknown keys are
ignored. -/
def parseControlObjective (j : Json) : Option ControlObjective :=
  match j with
  | .obj fields =>
    match lookupA fields "objective_id", lookupA fields "objective_name",
        lookupA fields "description", lookupA fields "domain" with
    | some (.str objective_id), some (.str objective_name),
        some (.str description), some (.str domain) =>
      match parseOptStrField (lookupA fields "intent"),
          parseOptStrField (lookupA fields "rationale") with
      | some intent, some rationale =>
        match lookupA fields "linked_obligation_ids" with
        | some (.arr items) =>
          match parseStrList items with
          | some linked =>
            some
              { objective_id := objective_id
              , objective_name := objective_name
              , description := description
              , domain := domain
              , intent := intent
              , linked_obligation_ids := linked
              , rationale := rationale }
          | none => none
        | _ => none
      | _, _ => none
    | _, _, _, _ => none
  | _ => none

/-- The objective loading loop: each record is validated in turn and the
first failure aborts the load. -/
def parseObjectiveList : List Json → Option (List ControlObjective)
  | [] => some []
  | j :: rest => do
    let o ← parseControlObjective j
    let os ← parseObjectiveList rest
    pure (o :: os)

/-- `_save_objectives`: the document written on every addition. -/
def saveObjectivesJson (objs : List ControlObjective) : Json :=
  .obj [("objectives", .arr (objs.map ControlObjective.model_dump))]

/-- `_load_objectives` applied to an existing document: read the list under
the key "objectives" (defaulting to the empty list when the key is absent)
and validate each record. -/
def loadObjectivesJson (j : Json) : Option (List ControlObjective) :=
  match j with
  | .obj fields =>
    match lookupA fields "objectives" with
    | some (.arr items) => parseObjectiveList items
    | some _ => none
    | none => some []
  | _ => none

/-! ## Objective registry (src/agent_sdk/registries/objective_registry.py) -/

structure ObjectiveRegistry where
  objectives : List ControlObjective
  index : List (String × ControlObjective)
  store : Json

/-- The index built at construction. -/
def buildObjectiveIndex (objs : List ControlObjective) :
    List (String × ControlObjective) :=
  objs.foldl (fun m o => insertA m o.objective_id o) []

/-- Registry construction on a path whose file already holds document `j`;
a malformed document is fatal. -/
def ObjectiveRegistry.load (j : Json) : Option ObjectiveRegistry := do
  let objs ← loadObjectivesJson j
  pure { objectives := objs, index := buildObjectiveIndex objs, store := j }

/-- Registry construction on a fresh path: `_ensure_registry_file` writes
an empty document and the registry starts empty. -/
def ObjectiveRegistry.emptyReg : ObjectiveRegistry :=
  { objectives := [], index := [], store := saveObjectivesJson [] }

def ObjectiveRegistry.get_all (reg : ObjectiveRegistry) :
    List ControlObjective :=
  reg.objectives

def ObjectiveRegistry.get_by_id (reg : ObjectiveRegistry)
    (objective_id : String) : Option ControlObjective :=
  lookupA reg.index objective_id

def ObjectiveRegistry.get_by_domain (reg : ObjectiveRegistry)
    (domain : String) : List ControlObjective :=
  reg.objectives.filter (fun o => o.domain = domain)

/-- `add_objective`: no-op when the ID is already indexed, otherwise append
to the sequence, index the entity and rewrite the whole store. -/
def ObjectiveRegistry.add_objective (reg : ObjectiveRegistry)
    (objective : ControlObjective) : ObjectiveRegistry :=
  if containsA reg.index objective.objective_id then reg
  else
    let objectives := reg.objectives ++ [objective]
    { objectives := objectives
    , index := insertA reg.index objective.objective_id objective
    , store := saveObjectivesJson objectives }

/-- `generate_next_id` for objectives: upper-case the domain, delete spaces
and hyphens, keep the first 12 characters; scan IDs with that starting
pattern, take the maximum parsed trailing number (skipping unparsable
ones), and emit the successor. -/
def ObjectiveRegistry.generate_next_id (reg : ObjectiveRegistry)
    (domain : String) : String :=
  let domainPref := strTake (strDelete '-' (strDelete ' ' (strUpper domain))) 12
  let existing_ids :=
    (reg.objectives.filter
      (fun o => strStartsWith o.objective_id ("OBJ-" ++ domainPref))).map
      (fun o => o.objective_id)
  if existing_ids.isEmpty then "OBJ-" ++ domainPref ++ "-1"
  else
    let numbers := existing_ids.filterMap
      (fun id => strToInt? ((strSplitOn '-' id).getLastD ""))
    let max_num := maxOr0 numbers
    "OBJ-" ++ domainPref ++ "-" ++ toString (max_num + 1)

/-! ## Variant registry (src/agent_sdk/registries/variant_registry.py) -/

structure VariantRegistry where
  variants : List ControlVariant
  index : List (String × ControlVariant)
  objective_index : List (String × List ControlVariant)
  store : List ControlVariant

def buildVariantIndex (vars : List ControlVariant) :
    List (String × ControlVariant) :=
  vars.foldl (fun m v => insertA m v.variant_id v) []

/-- `_build_objective_index`: group variants by objective, preserving
insertion order within each group. -/
def buildVariantObjectiveIndex (vars : List ControlVariant) :
    List (String × List ControlVariant) :=
  vars.foldl
    (fun idx v =>
      let cur := (lookupA idx v.objective_id).getD []
      insertA idx v.objective_id (cur ++ [v]))
    []

def VariantRegistry.emptyReg : VariantRegistry :=
  { variants := [], index := [], objective_index := [], store := [] }

def VariantRegistry.get_all (reg : VariantRegistry) : List ControlVariant :=
  reg.variants

def VariantRegistry.get_by_id (reg : VariantRegistry) (variant_id : String) :
    Option ControlVariant :=
  lookupA reg.index variant_id

def VariantRegistry.get_by_objective (reg : VariantRegistry)
    (objective_id : String) : List ControlVariant :=
  (lookupA reg.objective_index objective_id).getD []

def VariantRegistry.get_by_domain (reg : VariantRegistry) (domain : String) :
    List ControlVariant :=
  reg.variants.filter (fun v => v.domain = domain)

/-- `add_variant`: no-op when the ID is already indexed, otherwise append,
index by ID, extend the per-objective group and rewrite the store. -/
def VariantRegistry.add_variant (reg : VariantRegistry)
    (variant : ControlVariant) : VariantRegistry :=
  if containsA reg.index variant.variant_id then reg
  else
    let variants := reg.variants ++ [variant]
    let cur := (lookupA reg.objective_index variant.objective_id).getD []
    { variants := variants
    , index := insertA reg.index variant.variant_id variant
    , objective_index :=
        insertA reg.objective_index variant.objective_id (cur ++ [variant])
    , store := variants }

/-- The suffix extraction step: strip a leading "OBJ-". -/
def variantSuffix (objective_id : String) : String :=
  if strStartsWith objective_id "OBJ-" then strDrop objective_id 4
  else objective_id

/-- The per-ID number extraction step: an ID with at least four
hyphen-separated parts contributes its parsed last part (or nothing when
it does not parse); a shorter ID counts as 1. -/
def variantIdNumber (id : String) : Option Int :=
  let parts := strSplitOn '-' id
  if 4 ≤ parts.length then strToInt? (parts.getLastD "")
  else some 1

/-- `generate_next_id` for variants: with no variant recorded for the
objective emit CV-suffix with no trailing number; otherwise take the
successor of the maximum extracted number. -/
def VariantRegistry.generate_next_id (reg : VariantRegistry)
    (objective_id : String) : String :=
  let suffix := variantSuffix objective_id
  let existing_ids :=
    (reg.variants.filter (fun v => v.objective_id = objective_id)).map
      (fun v => v.variant_id)
  if existing_ids.isEmpty then "CV-" ++ suffix
  else
    let numbers := existing_ids.filterMap variantIdNumber
    let max_num := maxOr0 numbers
    "CV-" ++ suffix ++ "-" ++ toString (max_num + 1)

/-! ## Condition evaluation (LLMVariantMapper._evaluate_applies_if) -/

def AExpr.evalA (a : AExpr) (employee_count : Int) : Int :=
  match a with
  | .num n => n
  | .employee_count => employee_count

/-- Evaluation of a condition against the restricted context; `none` stands
for a raised exception.  Boolean connectives short-circuit exactly as the
Python operators do. -/
def BExpr.evalB : BExpr → Int → Option Bool
  | .cmp op a b, ec =>
    let x := a.evalA ec
    let y := b.evalA ec
    some
      (match op with
      | .lt => decide (x < y)
      | .le => decide (x ≤ y)
      | .gt => decide (y < x)
      | .ge => decide (y ≤ x)
      | .eqOp => decide (x = y)
      | .neOp => !(decide (x = y)))
  | .and a b, ec => do
    let va ← a.evalB ec
    if va then b.evalB ec else pure false
  | .or a b, ec => do
    let va ← a.evalB ec
    if va then pure true else b.evalB ec
  | .illFormed, _ => none

/-- `_evaluate_applies_if`: a missing employee count is replaced by 0 and
any raised exception yields False. -/
def evaluate_applies_if (applies_if : BExpr)
    (company_context : CompanyContext) : Bool :=
  (applies_if.evalB ((company_context.employee_count).getD 0)).getD false

/-! ## Control assembly (LLMVariantMapper.select_variant_and_build_control) -/

/-- The jurisdiction-requirement collection loop: walk the company
jurisdictions in declared order and append the requirement lines of each
jurisdiction the variant has an entry for. -/
def applicable_requirements (variant : ControlVariant)
    (company_context : CompanyContext) : List String :=
  company_context.jurisdictions.foldl
    (fun acc jurisdiction =>
      match lookupA variant.jurisdiction_requirements jurisdiction with
      | some reqs => acc ++ reqs
      | none => acc)
    []

/-- The tier chosen by the selection loop: the first entry whose condition
evaluates true, else the first entry of the list, else nothing. -/
def selectedTier (variant : ControlVariant)
    (company_context : CompanyContext) : Option SizeVariant :=
  match variant.variants.find?
      (fun v => evaluate_applies_if v.applies_if company_context) with
  | some v => some v
  | none => variant.variants.head?

def select_variant_and_build_control (variant : ControlVariant)
    (company_context : CompanyContext)
    (linked_obligation_ids : List String) : Option Control :=
  match selectedTier variant company_context with
  | none => none
  | some selected_variant =>
    let control_id :=
      variant.variant_id ++ "-" ++ strUpper selected_variant.variant_type
    let reqs := applicable_requirements variant company_context
    let description := variant.base_description
    let description :=
      match selected_variant.description_additions with
      | some s => if s = "" then description else description ++ "\n\n" ++ s
      | none => description
    let description :=
      if reqs.isEmpty then description
      else
        description ++ "\n\nJurisdiction-specific requirements:\n" ++
          strJoin (reqs.map (fun req => "- " ++ req ++ "\n"))
    let evidence := selected_variant.evidence_requirements
    let evidence_str :=
      if evidence.isEmpty then none else some (joinSep "; " evidence)
    some
      { control_id := control_id
      , control_name := variant.variant_name
      , control_description := description
      , linked_obligation_ids := joinSep "; " linked_obligation_ids
      , domain := some variant.domain
      , expected_evidence := evidence_str
      , review_interval :=
          some ((selected_variant.review_interval).getD "12 months")
      , impact := some "Critical" }

/-! ## Stage 1 (src/agent_sdk/agents/llm_obligation_mapper.py) -/

/-- `_create_and_register_objective`: resolve the domain through the Python
or-chain (response domain, else obligation domain, else "General", with the
empty string falsy), mint the next ID, build the objective with only the
triggering obligation linked, and register it. -/
def create_and_register_objective (obj_data : NewObjectiveData)
    (source_obligation : Obligation) (reg : ObjectiveRegistry) :
    ObjectiveRegistry × ControlObjective :=
  let domain :=
    if obj_data.domain = "" then
      match source_obligation.domain with
      | some d => if d = "" then "General" else d
      | none => "General"
    else obj_data.domain
  let new_id := reg.generate_next_id domain
  let objective : ControlObjective :=
    { objective_id := new_id
    , objective_name := obj_data.objective_name
    , description := obj_data.description
    , domain := domain
    , intent := some obj_data.intent
    , linked_obligation_ids := [source_obligation.obligation_id]
    , rationale := some obj_data.rationale }
  (reg.add_objective objective, objective)

/-- `_process_mapping_result`: resolve each matched ID against the registry
as it stood before this response (unresolved IDs are dropped), then create
and register each new objective in order. -/
def process_mapping_result (result : ObligationMappingResponse)
    (obligation : Obligation) (reg : ObjectiveRegistry) :
    ObjectiveRegistry × List ControlObjective :=
  let matched := result.matched_objective_ids.filterMap reg.get_by_id
  let step := result.new_objectives.foldl
    (fun (acc : ObjectiveRegistry × List ControlObjective) d =>
      let r := create_and_register_objective d obligation acc.1
      (r.1, acc.2 ++ [r.2]))
    (reg, [])
  (step.1, matched ++ step.2)

/-- The Stage-1 LLM collaborator: the structured response, or `none` for a
call or parse failure. -/
def Stage1Oracle : Type := Obligation → Option ObligationMappingResponse

/-- `map_obligation`: an LLM failure is logged and yields the empty list
for this obligation only. -/
def map_obligation (llm : Stage1Oracle) (reg : ObjectiveRegistry)
    (obligation : Obligation) : ObjectiveRegistry × List ControlObjective :=
  match llm obligation with
  | none => (reg, [])
  | some response => process_mapping_result response obligation reg

/-- One iteration of the batch loop: map the obligation against the
current registry and record its (possibly empty) objective list under its
obligation ID. -/
def batch_step (llm : Stage1Oracle)
    (acc : ObjectiveRegistry × List (String × List ControlObjective))
    (obligation : Obligation) :
    ObjectiveRegistry × List (String × List ControlObjective) :=
  let r := map_obligation llm acc.1 obligation
  (r.1, insertA acc.2 obligation.obligation_id r.2)

/-- `map_obligations_batch`: obligations processed sequentially, results
collected into a mapping keyed by obligation ID. -/
def map_obligations_batch (llm : Stage1Oracle) (reg : ObjectiveRegistry)
    (obligations : List Obligation) :
    ObjectiveRegistry × List (String × List ControlObjective) :=
  obligations.foldl (batch_step llm) (reg, [])

/-! ## Stage 2a (src/agent_sdk/agents/llm_variant_mapper.py) -/

/-- `_create_and_register_variant`: mint the next variant ID from the
objective, build the variant from the response payload and register it. -/
def create_and_register_variant (var_data : NewVariantData)
    (objective : ControlObjective) (reg : VariantRegistry) :
    VariantRegistry × ControlVariant :=
  let new_id := reg.generate_next_id objective.objective_id
  let variant : ControlVariant :=
    { variant_id := new_id
    , objective_id := objective.objective_id
    , variant_name := var_data.variant_name
    , base_description := var_data.base_description
    , domain := objective.domain
    , variants := var_data.variants.map SizeVariantData.model_dump
    , jurisdiction_requirements := var_data.jurisdiction_requirements }
  (reg.add_variant variant, variant)

/-- `_process_mapping_result` of Stage 2: the first matched ID wins when it
resolves; otherwise the first new-variant payload is created; otherwise
nothing. -/
def process_variant_mapping_result (result : VariantMappingResponse)
    (objective : ControlObjective) (reg : VariantRegistry) :
    VariantRegistry × Option ControlVariant :=
  let matchedVariant :=
    match result.matched_variant_ids.head? with
    | some variant_id => reg.get_by_id variant_id
    | none => none
  match matchedVariant with
  | some v => (reg, some v)
  | none =>
    match result.new_variants.head? with
    | some var_data =>
      let r := create_and_register_variant var_data objective reg
      (r.1, some r.2)
    | none => (reg, none)

/-- The Stage-2 LLM collaborator: it sees the objective, the company
context and the in-domain variant catalog. -/
def Stage2Oracle : Type :=
  ControlObjective → CompanyContext → List ControlVariant →
    Option VariantMappingResponse

/-- `map_objective_to_variant`: an LLM failure yields no variant for this
objective only. -/
def map_objective_to_variant (llm : Stage2Oracle) (reg : VariantRegistry)
    (objective : ControlObjective) (company_context : CompanyContext) :
    VariantRegistry × Option ControlVariant :=
  let existing_variants := reg.get_by_domain objective.domain
  match llm objective company_context existing_variants with
  | none => (reg, none)
  | some response => process_variant_mapping_result response objective reg

/-! ## Orchestrator (src/agent_sdk/agents/control_generation.py) -/

/-- The reverse index built by Stage 2: objective ID to the obligation IDs
that reference it, in mapping order. -/
def build_objective_to_obligations
    (obligation_to_objectives : List (String × List ControlObjective)) :
    List (String × List String) :=
  obligation_to_objectives.foldl
    (fun idx p =>
      p.2.foldl
        (fun idx2 obj =>
          let cur := (lookupA idx2 obj.objective_id).getD []
          insertA idx2 obj.objective_id (cur ++ [p.1]))
        idx)
    []

/-- `stage_2_map_objectives_to_controls`: per objective, map to a variant
(matching or generating) and build the control; objectives with no variant
or no control are skipped. -/
def stage_2_map_objectives_to_controls (llm : Stage2Oracle)
    (reg : VariantRegistry) (objectives : List ControlObjective)
    (company_context : CompanyContext)
    (obligation_to_objectives : List (String × List ControlObjective)) :
    VariantRegistry × List Control :=
  let objective_to_obligations :=
    build_objective_to_obligations obligation_to_objectives
  objectives.foldl
    (fun acc objective =>
      let linked :=
        (lookupA objective_to_obligations objective.objective_id).getD []
      let r := map_objective_to_variant llm acc.1 objective company_context
      match r.2 with
      | none => (r.1, acc.2)
      | some variant =>
        match select_variant_and_build_control variant company_context
            linked with
        | none => (r.1, acc.2)
        | some control => (r.1, acc.2 ++ [control]))
    (reg, [])

/-- The deduplication between the stages: unique objectives by ID, in
encounter order. -/
def unique_objectives_of
    (mapping : List (String × List ControlObjective)) :
    List ControlObjective :=
  (mapping.foldl
    (fun m p => p.2.foldl (fun m2 obj => insertA m2 obj.objective_id obj) m)
    []).map (fun p => p.2)

/-- `generate_controls`: Stage 1 over all obligations, deduplication, then
Stage 2 over the unique objectives. -/
def generate_controls (llm1 : Stage1Oracle) (llm2 : Stage2Oracle)
    (objReg : ObjectiveRegistry) (varReg : VariantRegistry)
    (obligations : List Obligation) (company_context : CompanyContext) :
    ObjectiveRegistry × VariantRegistry × List Control :=
  let s1 := map_obligations_batch llm1 objReg obligations
  let objectives_list := unique_objectives_of s1.2
  let s2 := stage_2_map_objectives_to_controls llm2 varReg objectives_list
    company_context s1.2
  (s1.1, s2.1, s2.2)

/-! ## Generic lemmas about the dict model -/

theorem lookupA_insertA_self {V : Type} (m : List (String × V)) (k : String)
    (v : V) : lookupA (insertA m k v) k = some v := by
  induction m with
  | nil => simp [insertA, lookupA]
  | cons p rest ih =>
    obtain ⟨k1, v1⟩ := p
    by_cases h : k1 = k
    · simp [insertA, lookupA, h]
    · simp [insertA, lookupA, h, ih]

theorem lookupA_insertA_ne {V : Type} (m : List (String × V)) (k x : String)
    (v : V) (h : k ≠ x) : lookupA (insertA m k v) x = lookupA m x := by
  induction m with
  | nil => simp [insertA, lookupA, h]
  | cons p rest ih =>
    obtain ⟨k1, v1⟩ := p
    by_cases h1 : k1 = k
    · subst h1
      simp [insertA, lookupA, h]
    · simp [insertA, h1]
      by_cases h2 : k1 = x
      · simp [lookupA, h2]
      · simp [lookupA, h2, ih]

theorem containsA_insertA {V : Type} (m : List (String × V)) (k x : String)
    (v : V) :
    containsA (insertA m k v) x = (containsA m x || decide (k = x)) := by
  induction m with
  | nil => simp [insertA, containsA]
  | cons p rest ih =>
    obtain ⟨k1, v1⟩ := p
    simp only [insertA]
    by_cases h1 : k1 = k
    · subst h1
      rw [if_pos rfl]
      simp only [containsA]
      by_cases h2 : k1 = x <;> simp [h2]
    · rw [if_neg h1]
      simp only [containsA, ih]
      by_cases h2 : k1 = x <;> simp [h2, Bool.or_assoc]

theorem keysA_insertA_of_contains {V : Type} (m : List (String × V))
    (k : String) (v : V) (h : containsA m k = true) :
    (insertA m k v).map Prod.fst = m.map Prod.fst := by
  induction m with
  | nil => simp [containsA] at h
  | cons p rest ih =>
    obtain ⟨k1, v1⟩ := p
    by_cases h1 : k1 = k
    · simp [insertA, h1]
    · simp [containsA, h1] at h
      simp [insertA, h1, ih h]

theorem keysA_insertA_of_fresh {V : Type} (m : List (String × V))
    (k : String) (v : V) (h : containsA m k = false) :
    (insertA m k v).map Prod.fst = m.map Prod.fst ++ [k] := by
  induction m with
  | nil => simp [insertA]
  | cons p rest ih =>
    obtain ⟨k1, v1⟩ := p
    by_cases h1 : k1 = k
    · simp [containsA, h1] at h
    · simp [containsA, h1] at h
      simp [insertA, h1, ih h]

theorem containsA_foldl_insertA {α V : Type} (key : α → String) (val : α → V)
    (l : List α) (m : List (String × V)) (id : String) :
    containsA (l.foldl (fun acc x => insertA acc (key x) (val x)) m) id =
      (containsA m id || l.any (fun x => key x = id)) := by
  induction l generalizing m with
  | nil => simp
  | cons x rest ih =>
    simp only [List.foldl_cons, List.any_cons]
    rw [ih, containsA_insertA]
    by_cases h : key x = id <;> simp [h]

/-! ## Shared concrete scenario -/

/-- The obligation of the end-to-end scenario. -/
def scenarioObligation : Obligation :=
  { obligation_id := "OBL-1"
  , obligation := "Ensure personal data processing is transparent"
  , framework_source := "GDPR"
  , clause_source := "5.1.a"
  , domain := some "Data protection"
  , impact := some "Critical" }

/-- The company context of the end-to-end scenario. -/
def scenarioContext : CompanyContext :=
  { company_name := "Acme"
  , employee_count := some 250
  , industry := "SaaS"
  , jurisdictions := ["SE", "EU"]
  , risk_appetite := none
  , compliance_maturity := none }

/-- The canonical startup tier taught by the Stage-2 prompt. -/
def startupTier : SizeVariantData :=
  { variant_type := "startup"
  , applies_if := .cmp .lt .employee_count (.num 50)
  , description_additions := "light"
  , evidence_requirements := ["e1"]
  , review_interval := "12 months" }

/-- The canonical SME tier taught by the Stage-2 prompt. -/
def smeTier : SizeVariantData :=
  { variant_type := "sme"
  , applies_if :=
      .and (.cmp .ge .employee_count (.num 50))
        (.cmp .lt .employee_count (.num 1000))
  , description_additions := "mid"
  , evidence_requirements := ["e1", "e2"]
  , review_interval := "6 months" }

/-- The canonical enterprise tier taught by the Stage-2 prompt. -/
def enterpriseTier : SizeVariantData :=
  { variant_type := "enterprise"
  , applies_if := .cmp .ge .employee_count (.num 1000)
  , description_additions := "big"
  , evidence_requirements := ["e1", "e2", "e3"]
  , review_interval := "3 months" }

/-- A Stage-1 collaborator that returns one new objective and no matches. -/
def scenarioStage1 : Stage1Oracle := fun _ =>
  some
    { analysis := "a"
    , matched_objective_ids := []
    , new_objectives :=
        [{ objective_name := "Transparency in data processing"
         , description := "d"
         , domain := "Data protection"
         , intent := "i"
         , rationale := "r" }]
    , reasoning := "re" }

/-- A Stage-2 collaborator that returns one new variant with the three
canonical size tiers and requirement lines for both company
jurisdictions. -/
def scenarioStage2 : Stage2Oracle := fun _ _ _ =>
  some
    { analysis := "a"
    , matched_variant_ids := []
    , new_variants :=
        [{ variant_name := "V"
         , base_description := "base"
         , variants := [startupTier, smeTier, enterpriseTier]
         , jurisdiction_requirements := [("SE", ["req1"]), ("EU", ["req2"])] }]
    , reasoning := "re" }

/-- The end-to-end run: empty registries, one obligation. -/
def scenarioRun :
    ObjectiveRegistry × VariantRegistry × List Control :=
  generate_controls scenarioStage1 scenarioStage2 ObjectiveRegistry.emptyReg
    VariantRegistry.emptyReg [scenarioObligation] scenarioContext

/-- A stand-alone variant with the three canonical tiers, used to exercise
tier selection and jurisdiction merging directly. -/
def canonVariant : ControlVariant :=
  { variant_id := "CV-CANON"
  , objective_id := "OBJ-CANON-1"
  , variant_name := "V"
  , base_description := "base"
  , domain := "Data protection"
  , variants :=
      [startupTier.model_dump, smeTier.model_dump, enterpriseTier.model_dump]
  , jurisdiction_requirements := [("SE", ["req1"]), ("EU", ["req2"])] }

theorem strAppend_assoc (a b c : String) :
    (a ++ b) ++ c = a ++ (b ++ c) := by
  cases a with
  | mk la =>
    cases b with
    | mk lb =>
      cases c with
      | mk lc =>
        show String.mk ((la ++ lb) ++ lc) = String.mk (la ++ (lb ++ lc))
        rw [List.append_assoc]

theorem exists_next_id_tail (base : String) (b : Bool) (m : Int) :
    ∃ n : Int,
      (if b then base ++ "-1" else base ++ "-" ++ toString m) =
        base ++ "-" ++ toString n := by
  cases b
  · exact ⟨m, rfl⟩
  · refine ⟨1, ?_⟩
    show base ++ "-1" = base ++ "-" ++ toString (1 : Int)
    rw [strAppend_assoc]
    exact congrArg (fun s => base ++ s) (by decide)

/-- The objective registered between the two ID generations of claim C2. -/
def objDataProt1 : ControlObjective :=
  { objective_id := "OBJ-DATAPROTECTI-1"
  , objective_name := "Transparency in data processing"
  , description := "d"
  , domain := "Data protection"
  , intent := some "i"
  , linked_obligation_ids := ["OBL-1"]
  , rationale := some "r" }

/-- The variant registered between the two ID generations of claim C3. -/
def cvTrans1 : ControlVariant :=
  { variant_id := "CV-TRANS-1"
  , objective_id := "OBJ-TRANS-1"
  , variant_name := "n"
  , base_description := "b"
  , domain := "Data protection"
  , variants := []
  , jurisdiction_requirements := [] }

/-- Claim C2 counterexample: on an empty registry, the next objective ID
for domain "Data protection" is OBJ-DATAPROTECTI-1 — the stripped domain
DATAPROTECTION has 14 characters and the generator truncates the prefix to
12 — and not OBJ-DATAPROTECTION-1 as the claim states. -/
theorem C2_counterexample :
    ObjectiveRegistry.generate_next_id ObjectiveRegistry.emptyReg
        "Data protection" = "OBJ-DATAPROTECTI-1" ∧
    ¬ ObjectiveRegistry.generate_next_id ObjectiveRegistry.emptyReg
        "Data protection" = "OBJ-DATAPROTECTION-1" := by
  constructor
  · decide
  · decide

/-- Claim C2 (amended): with no existing objectives for domain
"Data protection", generate_next_id returns OBJ-DATAPROTECTI-1; after an
objective with that ID is registered, the next call returns
OBJ-DATAPROTECTI-2; and in general every generated ID is built from the
domain upper-cased, stripped of spaces and hyphens and truncated to 12
characters, followed by a numeric tail. -/
theorem C2_objective_id_monotonicity :
    ObjectiveRegistry.generate_next_id ObjectiveRegistry.emptyReg
        "Data protection" = "OBJ-DATAPROTECTI-1" ∧
    (ObjectiveRegistry.emptyReg.add_objective objDataProt1).generate_next_id
        "Data protection" = "OBJ-DATAPROTECTI-2" ∧
    ∀ (reg : ObjectiveRegistry) (domain : String),
      ∃ n : Int,
        reg.generate_next_id domain =
          "OBJ-" ++ strTake (strDelete '-' (strDelete ' ' (strUpper domain))) 12
            ++ "-" ++ toString n := by
  refine ⟨by decide, by decide, ?_⟩
  intro reg domain
  simp only [ObjectiveRegistry.generate_next_id]
  exact exists_next_id_tail _ _ _

/-- Claim C3 (confirmed): for objective OBJ-TRANS-1 with no variants
registered, generate_next_id returns CV-TRANS-1 with no trailing number;
after one variant for that objective is registered the next call returns
CV-TRANS-1-2; and in general, when variants exist for the objective, each
existing ID with at least four hyphen-separated segments contributes its
last segment as a number, shorter IDs count as 1, and the result is
CV-suffix followed by the successor of the maximum. -/
theorem C3_variant_id_shape :
    VariantRegistry.emptyReg.generate_next_id "OBJ-TRANS-1" = "CV-TRANS-1" ∧
    (VariantRegistry.emptyReg.add_variant cvTrans1).generate_next_id
        "OBJ-TRANS-1" = "CV-TRANS-1-2" ∧
    (∀ (reg : VariantRegistry) (objective_id : String),
      reg.variants.filter (fun v => v.objective_id = objective_id) ≠ [] →
      reg.generate_next_id objective_id =
        "CV-" ++ variantSuffix objective_id ++ "-" ++
          toString
            (maxOr0
              (((reg.variants.filter
                    (fun v => v.objective_id = objective_id)).map
                  (fun v => v.variant_id)).filterMap variantIdNumber) + 1)) ∧
    (∀ (reg : VariantRegistry) (objective_id : String),
      reg.variants.filter (fun v => v.objective_id = objective_id) = [] →
      reg.generate_next_id objective_id =
        "CV-" ++ variantSuffix objective_id) := by
  refine ⟨by decide, by decide, ?_, ?_⟩
  · intro reg objective_id h
    simp only [VariantRegistry.generate_next_id]
    cases hF : reg.variants.filter (fun v => v.objective_id = objective_id) with
    | nil => exact absurd hF h
    | cons x xs => rfl
  · intro reg objective_id h
    simp only [VariantRegistry.generate_next_id]
    rw [h]
    rfl

/-- Claim C3 witness: the general characterization applied to the registry
holding exactly the first TRANS variant. -/
theorem C3_variant_id_shape_witness :
    (VariantRegistry.emptyReg.add_variant cvTrans1).generate_next_id
        "OBJ-TRANS-1" =
      "CV-" ++ variantSuffix "OBJ-TRANS-1" ++ "-" ++
        toString
          (maxOr0
            ((((VariantRegistry.emptyReg.add_variant cvTrans1).variants.filter
                  (fun v => v.objective_id = "OBJ-TRANS-1")).map
                (fun v => v.variant_id)).filterMap variantIdNumber) + 1) :=
  C3_variant_id_shape.2.2.1 (VariantRegistry.emptyReg.add_variant cvTrans1)
    "OBJ-TRANS-1" (by decide)

/-- Claim C1 counterexample: in the end-to-end scenario the pipeline
produces exactly one control whose control_id is CV-DATAPROTECTI-1-SME,
not CV-DATAPROTECTION-1-1-SME as the claim states, and the created
objective is OBJ-DATAPROTECTI-1, not OBJ-DATAPROTECTION-1. -/
theorem C1_counterexample :
    scenarioRun.2.2.map (fun c => c.control_id) = ["CV-DATAPROTECTI-1-SME"] ∧
    ¬ (∃ c ∈ scenarioRun.2.2, c.control_id = "CV-DATAPROTECTION-1-1-SME") ∧
    scenarioRun.1.objectives.map (fun o => o.objective_id) =
      ["OBJ-DATAPROTECTI-1"] ∧
    ¬ (∃ o ∈ scenarioRun.1.objectives,
        o.objective_id = "OBJ-DATAPROTECTION-1") := by
  refine ⟨by decide, by decide, by decide, by decide⟩

/-- Claim C1 (amended): starting from empty registries, with one
obligation of domain "Data protection", the scenario Stage-1 response (one
new objective, no matches) and the scenario Stage-2 response (one new
variant with the three canonical size tiers), the pipeline creates the
objective OBJ-DATAPROTECTI-1 (the stripped domain is truncated to 12
characters), then the variant CV-DATAPROTECTI-1 carrying three size tiers
(a first variant for an objective has no trailing number), selects the SME
tier for employee_count 250, and the final Control has control_id
CV-DATAPROTECTI-1-SME. -/
theorem C1_end_to_end :
    scenarioRun.1.objectives.map (fun o => o.objective_id) =
      ["OBJ-DATAPROTECTI-1"] ∧
    scenarioRun.2.1.variants.map (fun v => v.variant_id) =
      ["CV-DATAPROTECTI-1"] ∧
    scenarioRun.2.1.variants.map (fun v => v.variants.length) = [3] ∧
    scenarioRun.2.2.map (fun c => c.control_id) = ["CV-DATAPROTECTI-1-SME"] ∧
    scenarioRun.2.2.map (fun c => strEndsWith c.control_id "-SME") = [true] := by
  refine ⟨by decide, by decide, by decide, by decide, by decide⟩

theorem find?_append_of_all_false {α : Type} (p : α → Bool)
    (l1 l2 : List α) (h : ∀ x ∈ l1, p x = false) :
    (l1 ++ l2).find? p = l2.find? p := by
  induction l1 with
  | nil => rfl
  | cons x rest ih =>
    have hx : p x = false := h x (by simp)
    simp only [List.cons_append, List.find?, hx]
    exact ih (fun y hy => h y (by simp [hy]))

theorem find?_eq_none_of_all_false {α : Type} (p : α → Bool) (l : List α)
    (h : ∀ x ∈ l, p x = false) : l.find? p = none := by
  have := find?_append_of_all_false p l [] h
  simpa using this

theorem selectedTier_first_match (variant : ControlVariant)
    (ctx : CompanyContext) (pre rest : List SizeVariant) (sv : SizeVariant)
    (hsplit : variant.variants = pre ++ sv :: rest)
    (hpre : ∀ v ∈ pre, evaluate_applies_if v.applies_if ctx = false)
    (hsv : evaluate_applies_if sv.applies_if ctx = true) :
    selectedTier variant ctx = some sv := by
  unfold selectedTier
  rw [hsplit, find?_append_of_all_false _ _ _ hpre]
  simp [List.find?, hsv]

theorem selectedTier_fallback (variant : ControlVariant)
    (ctx : CompanyContext)
    (hall : ∀ v ∈ variant.variants,
      evaluate_applies_if v.applies_if ctx = false) :
    selectedTier variant ctx = variant.variants.head? := by
  unfold selectedTier
  rw [find?_eq_none_of_all_false _ _ hall]

theorem select_control_id_of_tier (variant : ControlVariant)
    (ctx : CompanyContext) (linked : List String) (sv : SizeVariant)
    (h : selectedTier variant ctx = some sv) :
    ∃ c, select_variant_and_build_control variant ctx linked = some c ∧
      c.control_id = variant.variant_id ++ "-" ++ strUpper sv.variant_type := by
  simp only [select_variant_and_build_control, h]
  exact ⟨_, rfl, rfl⟩

/-- Claim C4 (confirmed): tier selection is first-match-wins in stored
order; with no true condition (including the case where every evaluation
fails) the first entry is selected; an empty tier list yields no control;
a missing employee_count is evaluated as 0; and for the three canonical
conditions with employee_count 250 the SME tier is selected, giving a
control_id ending in -SME. -/
theorem C4_tier_selection_first_match :
    (∀ (variant : ControlVariant) (ctx : CompanyContext)
        (linked : List String) (pre rest : List SizeVariant)
        (sv : SizeVariant),
      variant.variants = pre ++ sv :: rest →
      (∀ v ∈ pre, evaluate_applies_if v.applies_if ctx = false) →
      evaluate_applies_if sv.applies_if ctx = true →
      ∃ c, select_variant_and_build_control variant ctx linked = some c ∧
        c.control_id =
          variant.variant_id ++ "-" ++ strUpper sv.variant_type) ∧
    (∀ (variant : ControlVariant) (ctx : CompanyContext)
        (linked : List String) (sv : SizeVariant) (tl : List SizeVariant),
      variant.variants = sv :: tl →
      (∀ v ∈ variant.variants,
        evaluate_applies_if v.applies_if ctx = false) →
      ∃ c, select_variant_and_build_control variant ctx linked = some c ∧
        c.control_id =
          variant.variant_id ++ "-" ++ strUpper sv.variant_type) ∧
    (∀ (variant : ControlVariant) (ctx : CompanyContext)
        (linked : List String),
      variant.variants = [] →
      select_variant_and_build_control variant ctx linked = none) ∧
    (∀ (applies_if : BExpr) (ctx : CompanyContext),
      ctx.employee_count = none →
      evaluate_applies_if applies_if ctx = (applies_if.evalB 0).getD false) ∧
    (select_variant_and_build_control canonVariant scenarioContext []).map
        (fun c => c.control_id) = some "CV-CANON-SME" ∧
    (select_variant_and_build_control canonVariant scenarioContext []).map
        (fun c => strEndsWith c.control_id "-SME") = some true := by
  refine ⟨?_, ?_, ?_, ?_, by decide, by decide⟩
  · intro variant ctx linked pre rest sv hsplit hpre hsv
    exact select_control_id_of_tier variant ctx linked sv
      (selectedTier_first_match variant ctx pre rest sv hsplit hpre hsv)
  · intro variant ctx linked sv tl hcons hall
    have h : selectedTier variant ctx = some sv := by
      rw [selectedTier_fallback variant ctx hall, hcons]
      rfl
    exact select_control_id_of_tier variant ctx linked sv h
  · intro variant ctx linked hnil
    unfold select_variant_and_build_control
    rw [selectedTier_fallback variant ctx (by rw [hnil]; intro v hv; cases hv),
      hnil]
    rfl
  · intro applies_if ctx h
    simp [evaluate_applies_if, h]

/-- Claim C4 witness: the first-match conjunct applied to the canonical
three-tier variant and the 250-employee context, the startup tier failing
and the SME tier matching. -/
theorem C4_tier_selection_first_match_witness :
    ∃ c, select_variant_and_build_control canonVariant scenarioContext [] =
        some c ∧
      c.control_id =
        canonVariant.variant_id ++ "-" ++
          strUpper (smeTier.model_dump).variant_type :=
  C4_tier_selection_first_match.1 canonVariant scenarioContext []
    [startupTier.model_dump] [enterpriseTier.model_dump] smeTier.model_dump
    (by decide) (by decide) (by decide)

theorem appreq_foldl_join (jr : List (String × List String))
    (js : List String) (acc : List String) :
    js.foldl
        (fun acc j =>
          match lookupA jr j with
          | some reqs => acc ++ reqs
          | none => acc)
        acc =
      acc ++ (js.filterMap (fun j => lookupA jr j)).flatten := by
  induction js generalizing acc with
  | nil => simp
  | cons j rest ih =>
    simp only [List.foldl_cons, List.filterMap_cons]
    cases h : lookupA jr j with
    | none => simp [h, ih]
    | some reqs => simp [h, ih, List.flatten, List.append_assoc]

/-- Claim C5 (confirmed): the applicable jurisdiction requirements are the
concatenation, in the company's declared jurisdiction order, of the
requirement lines of each jurisdiction the variant has an entry for; when
any requirement was collected the description ends with the labelled
bullet list over exactly that sequence; and in the concrete SE/EU example
the description contains req1 and then req2. -/
theorem C5_jurisdiction_ordering :
    (∀ (variant : ControlVariant) (ctx : CompanyContext),
      applicable_requirements variant ctx =
        (ctx.jurisdictions.filterMap
          (fun j => lookupA variant.jurisdiction_requirements j)).flatten) ∧
    (∀ (variant : ControlVariant) (ctx : CompanyContext)
        (linked : List String) (sv : SizeVariant),
      selectedTier variant ctx = some sv →
      applicable_requirements variant ctx ≠ [] →
      ∃ pre2,
        (select_variant_and_build_control variant ctx linked).map
            (fun c => c.control_description) =
          some
            (pre2 ++ "\n\nJurisdiction-specific requirements:\n" ++
              strJoin ((applicable_requirements variant ctx).map
                (fun req => "- " ++ req ++ "\n")))) ∧
    applicable_requirements canonVariant scenarioContext =
      ["req1", "req2"] ∧
    (select_variant_and_build_control canonVariant scenarioContext []).map
        (fun c => c.control_description) =
      some
        "base\n\nmid\n\nJurisdiction-specific requirements:\n- req1\n- req2\n" ∧
    ∃ s t u,
      "base\n\nmid\n\nJurisdiction-specific requirements:\n- req1\n- req2\n" =
        s ++ "req1" ++ t ++ "req2" ++ u := by
  refine
    ⟨?_, ?_, by decide, by decide,
      ⟨"base\n\nmid\n\nJurisdiction-specific requirements:\n- ", "\n- ", "\n",
        by decide⟩⟩
  · intro variant ctx
    exact appreq_foldl_join variant.jurisdiction_requirements
      ctx.jurisdictions []
  · intro variant ctx linked sv hsel hne
    cases hr : applicable_requirements variant ctx with
    | nil => exact absurd hr hne
    | cons r rs =>
      refine
        ⟨(match sv.description_additions with
          | some s =>
            if s = "" then variant.base_description
            else variant.base_description ++ "\n\n" ++ s
          | none => variant.base_description), ?_⟩
      simp only [select_variant_and_build_control, hsel, hr, Option.map]
      rfl

/-- Claim C5 witness: the description-shape conjunct applied to the
canonical variant and the SE/EU context, whose selected tier is the SME
tier. -/
theorem C5_jurisdiction_ordering_witness :
    ∃ pre2,
      (select_variant_and_build_control canonVariant scenarioContext
            []).map (fun c => c.control_description) =
        some
          (pre2 ++ "\n\nJurisdiction-specific requirements:\n" ++
            strJoin
              ((applicable_requirements canonVariant scenarioContext).map
                (fun req => "- " ++ req ++ "\n"))) :=
  C5_jurisdiction_ordering.2.1 canonVariant scenarioContext []
    smeTier.model_dump (by decide) (by decide)

/-- A variant whose single tier dict carries no review_interval key. -/
def bareVariant : ControlVariant :=
  { variant_id := "CV-BARE"
  , objective_id := "OBJ-B-1"
  , variant_name := "B"
  , base_description := "b"
  , domain := "D"
  , variants :=
      [{ variant_type := "startup"
       , applies_if := .illFormed
       , description_additions := none
       , evidence_requirements := []
       , review_interval := none }]
  , jurisdiction_requirements := [] }

/-- Claim C10 (confirmed): whenever a control is built, its
review_interval is the selected tier's value when that tier carries one
and the default "12 months" otherwise; concretely, a tier without the key
yields "12 months" and the canonical SME tier's "6 months" is copied
unchanged. -/
theorem C10_review_interval_default :
    (∀ (variant : ControlVariant) (ctx : CompanyContext)
        (linked : List String),
      (select_variant_and_build_control variant ctx linked).map
          (fun c => c.review_interval) =
        (selectedTier variant ctx).map
          (fun sv => some ((sv.review_interval).getD "12 months"))) ∧
    (select_variant_and_build_control bareVariant scenarioContext []).map
        (fun c => c.review_interval) = some (some "12 months") ∧
    (select_variant_and_build_control canonVariant scenarioContext []).map
        (fun c => c.review_interval) = some (some "6 months") := by
  refine ⟨?_, by decide, by decide⟩
  intro variant ctx linked
  cases hsel : selectedTier variant ctx with
  | none => simp [select_variant_and_build_control, hsel]
  | some sv => simp [select_variant_and_build_control, hsel]

/-- Claim C9 (confirmed): matched IDs are resolved by registry lookup and
only the resolving ones enter the returned list, ahead of the newly
created objectives; the registry evolution does not depend on the matched
IDs at all, so dropping an unresolvable ID raises nothing and creates
nothing; and every resolved entry is an entity the registry already
held. -/
theorem C9_silent_drop :
    ∀ (result : ObligationMappingResponse) (obligation : Obligation)
        (reg : ObjectiveRegistry),
      (process_mapping_result result obligation reg).2 =
        result.matched_objective_ids.filterMap reg.get_by_id ++
          (process_mapping_result
              { result with matched_objective_ids := [] } obligation reg).2 ∧
      (process_mapping_result result obligation reg).1 =
        (process_mapping_result
            { result with matched_objective_ids := [] } obligation reg).1 ∧
      (∀ o ∈ result.matched_objective_ids.filterMap reg.get_by_id,
        ∃ id ∈ result.matched_objective_ids, reg.get_by_id id = some o) := by
  intro result obligation reg
  refine ⟨rfl, rfl, ?_⟩
  intro o ho
  rcases List.mem_filterMap.mp ho with ⟨id, hid, hget⟩
  exact ⟨id, hid, hget⟩

/-- A registry holding the scenario objective, for exercising lookup
resolution. -/
def regWithObjective : ObjectiveRegistry :=
  ObjectiveRegistry.emptyReg.add_objective objDataProt1

/-- A Stage-1 response matching one real ID and one hallucinated ID. -/
def mixedMatchedResponse : ObligationMappingResponse :=
  { analysis := "a"
  , matched_objective_ids := ["OBJ-DATAPROTECTI-1", "OBJ-GHOST-9"]
  , new_objectives := []
  , reasoning := "r" }

/-- Claim C9 witness: the resolution conjunct applied to a response with
one real and one hallucinated ID, at the entity the real ID resolves
to. -/
theorem C9_silent_drop_witness :
    ∃ id ∈ mixedMatchedResponse.matched_objective_ids,
      regWithObjective.get_by_id id = some objDataProt1 :=
  (C9_silent_drop mixedMatchedResponse scenarioObligation
      regWithObjective).2.2 objDataProt1 (by decide)

theorem foldl_batch_reg (llm : Stage1Oracle) (l : List Obligation) :
    ∀ (reg : ObjectiveRegistry)
      (m1 m2 : List (String × List ControlObjective)),
      (l.foldl (batch_step llm) (reg, m1)).1 =
        (l.foldl (batch_step llm) (reg, m2)).1 := by
  induction l with
  | nil => intro reg m1 m2; rfl
  | cons ob rest ih =>
    intro reg m1 m2
    simp only [List.foldl_cons, batch_step]
    exact ih _ _ _

theorem foldl_batch_lookup (llm : Stage1Oracle) (l : List Obligation) :
    ∀ (reg : ObjectiveRegistry)
      (m1 m2 : List (String × List ControlObjective)) (id : String),
      lookupA m1 id = lookupA m2 id →
      lookupA (l.foldl (batch_step llm) (reg, m1)).2 id =
        lookupA (l.foldl (batch_step llm) (reg, m2)).2 id := by
  induction l with
  | nil => intro _ _ _ _ h; exact h
  | cons ob rest ih =>
    intro reg m1 m2 id h
    simp only [List.foldl_cons, batch_step]
    apply ih
    by_cases hk : ob.obligation_id = id
    · subst hk; rw [lookupA_insertA_self, lookupA_insertA_self]
    · rw [lookupA_insertA_ne _ _ _ _ hk, lookupA_insertA_ne _ _ _ _ hk]
      exact h

theorem foldl_batch_lookup_frozen (llm : Stage1Oracle) (l : List Obligation) :
    ∀ (reg : ObjectiveRegistry)
      (m : List (String × List ControlObjective)) (id : String),
      (∀ ob ∈ l, ob.obligation_id ≠ id) →
      lookupA (l.foldl (batch_step llm) (reg, m)).2 id = lookupA m id := by
  induction l with
  | nil => intro _ _ _ _; rfl
  | cons ob rest ih =>
    intro reg m id h
    simp only [List.foldl_cons, batch_step]
    rw [ih _ _ _ (fun x hx => h x (List.mem_cons_of_mem _ hx))]
    exact lookupA_insertA_ne _ _ _ _ (h ob (List.mem_cons_self _ _))

theorem foldl_batch_keys (llm : Stage1Oracle) (l : List Obligation) :
    ∀ (reg : ObjectiveRegistry)
      (m : List (String × List ControlObjective)),
      (∀ ob ∈ l, containsA m ob.obligation_id = false) →
      ((l.map (fun o => o.obligation_id)).Nodup) →
      ((l.foldl (batch_step llm) (reg, m)).2).map Prod.fst =
        m.map Prod.fst ++ l.map (fun o => o.obligation_id) := by
  induction l with
  | nil => intro _ _ _ _; simp
  | cons ob rest ih =>
    intro reg m hfresh hnodup
    have hnd :
        (∀ x ∈ rest, ¬ x.obligation_id = ob.obligation_id) ∧
          ((rest.map (fun o => o.obligation_id)).Nodup) := by
      simpa using hnodup
    simp only [List.foldl_cons, batch_step, List.map_cons]
    rw [ih _ _ ?_ hnd.2]
    · rw [keysA_insertA_of_fresh _ _ _
        (hfresh ob (List.mem_cons_self _ _))]
      simp
    · intro x hx
      rw [containsA_insertA]
      have h1 : containsA m x.obligation_id = false :=
        hfresh x (List.mem_cons_of_mem _ hx)
      have h2 : ob.obligation_id ≠ x.obligation_id := by
        intro hEq
        exact hnd.1 x hx hEq.symm
      simp [h1, h2]

/-- Claim C8 (confirmed): an LLM failure on one obligation yields the
empty objective list for that obligation only; the batch over the other
obligations is unaffected (same final registry, same mapping entries), the
failing obligation maps to the empty sequence, and the mapping still has
one entry per input obligation, in input order. -/
theorem C8_partial_failure :
    ∀ (llm : Stage1Oracle) (reg : ObjectiveRegistry)
        (xs ys : List Obligation) (b : Obligation),
      llm b = none →
      (((xs ++ b :: ys).map (fun o => o.obligation_id)).Nodup) →
      map_obligation llm reg b = (reg, []) ∧
      (map_obligations_batch llm reg (xs ++ b :: ys)).1 =
        (map_obligations_batch llm reg (xs ++ ys)).1 ∧
      lookupA (map_obligations_batch llm reg (xs ++ b :: ys)).2
          b.obligation_id = some [] ∧
      (∀ id, id ≠ b.obligation_id →
        lookupA (map_obligations_batch llm reg (xs ++ b :: ys)).2 id =
          lookupA (map_obligations_batch llm reg (xs ++ ys)).2 id) ∧
      ((map_obligations_batch llm reg (xs ++ b :: ys)).2).map Prod.fst =
        (xs ++ b :: ys).map (fun o => o.obligation_id) := by
  intro llm reg xs ys b hfail hnodup
  have hmapapp :
      (xs ++ b :: ys).map (fun o => o.obligation_id) =
        xs.map (fun o => o.obligation_id) ++
          (b.obligation_id :: ys.map (fun o => o.obligation_id)) := by
    simp
  have hnd2 := (List.nodup_append.mp (hmapapp ▸ hnodup)).2.1
  have hbys : ∀ ob ∈ ys, ob.obligation_id ≠ b.obligation_id := by
    intro ob hob hEq
    exact (List.nodup_cons.mp hnd2).1 (hEq ▸ List.mem_map_of_mem _ hob)
  have hbstep :
      ∀ acc : ObjectiveRegistry × List (String × List ControlObjective),
        batch_step llm acc b =
          (acc.1, insertA acc.2 b.obligation_id []) := by
    intro acc
    simp [batch_step, map_obligation, hfail]
  have hfull :
      map_obligations_batch llm reg (xs ++ b :: ys) =
        ys.foldl (batch_step llm)
          ((xs.foldl (batch_step llm) (reg, [])).1,
            insertA (xs.foldl (batch_step llm) (reg, [])).2
              b.obligation_id []) := by
    unfold map_obligations_batch
    rw [List.foldl_append, List.foldl_cons, hbstep]
  have hrest :
      map_obligations_batch llm reg (xs ++ ys) =
        ys.foldl (batch_step llm) (xs.foldl (batch_step llm) (reg, [])) := by
    unfold map_obligations_batch
    rw [List.foldl_append]
  refine ⟨by simp [map_obligation, hfail], ?_, ?_, ?_, ?_⟩
  · rw [hfull, hrest]
    exact foldl_batch_reg llm ys _ _ _
  · rw [hfull]
    rw [foldl_batch_lookup_frozen llm ys _ _ _ hbys]
    exact lookupA_insertA_self _ _ _
  · intro id hid
    rw [hfull, hrest]
    exact foldl_batch_lookup llm ys _ _ _ id
      (lookupA_insertA_ne _ _ _ _ (fun h => hid h.symm))
  · unfold map_obligations_batch
    rw [foldl_batch_keys llm (xs ++ b :: ys) reg []
      (fun ob _ => rfl) hnodup]
    rfl

/-- Claim C8 witness: a three-obligation batch whose middle obligation
fails maps the middle one to the empty sequence while the outer two keep
their mappings. -/
theorem C8_partial_failure_witness :
    map_obligation
        (fun ob => if ob.obligation_id = "OBL-B" then none
          else scenarioStage1 ob)
        ObjectiveRegistry.emptyReg
        { scenarioObligation with obligation_id := "OBL-B" } =
      (ObjectiveRegistry.emptyReg, []) ∧
    lookupA
        (map_obligations_batch
          (fun ob => if ob.obligation_id = "OBL-B" then none
            else scenarioStage1 ob)
          ObjectiveRegistry.emptyReg
          ([{ scenarioObligation with obligation_id := "OBL-A" }] ++
            { scenarioObligation with obligation_id := "OBL-B" } ::
              [{ scenarioObligation with obligation_id := "OBL-C" }])).2
        "OBL-B" = some [] := by
  have h := C8_partial_failure
    (fun ob => if ob.obligation_id = "OBL-B" then none
      else scenarioStage1 ob)
    ObjectiveRegistry.emptyReg
    [{ scenarioObligation with obligation_id := "OBL-A" }]
    [{ scenarioObligation with obligation_id := "OBL-C" }]
    { scenarioObligation with obligation_id := "OBL-B" }
    (by decide) (by decide)
  exact ⟨h.1, h.2.2.1⟩

/-- Well-formedness of an objective registry state: the ID map is the one
built from the sequence and IDs are unique — both hold for a registry
constructed by `load` and are preserved by `add_objective`. -/
def ObjectiveRegistry.Wf (reg : ObjectiveRegistry) : Prop :=
  reg.index = buildObjectiveIndex reg.objectives ∧
  ((reg.objectives.map (fun o => o.objective_id)).Nodup)

/-- Well-formedness of a variant registry state. -/
def VariantRegistry.Wf (reg : VariantRegistry) : Prop :=
  reg.index = buildVariantIndex reg.variants ∧
  ((reg.variants.map (fun v => v.variant_id)).Nodup)

theorem containsA_buildObjectiveIndex (objs : List ControlObjective)
    (id : String) :
    containsA (buildObjectiveIndex objs) id =
      objs.any (fun o => o.objective_id = id) := by
  unfold buildObjectiveIndex
  rw [containsA_foldl_insertA]
  simp [containsA]

theorem containsA_buildVariantIndex (vars : List ControlVariant)
    (id : String) :
    containsA (buildVariantIndex vars) id =
      vars.any (fun v => v.variant_id = id) := by
  unfold buildVariantIndex
  rw [containsA_foldl_insertA]
  simp [containsA]

theorem add_objective_second_noop (oreg : ObjectiveRegistry)
    (a b : ControlObjective) (hid : b.objective_id = a.objective_id) :
    (oreg.add_objective a).add_objective b = oreg.add_objective a := by
  by_cases h : containsA oreg.index a.objective_id
  · have h1 : oreg.add_objective a = oreg := by
      simp [ObjectiveRegistry.add_objective, h]
    rw [h1]
    simp [ObjectiveRegistry.add_objective, hid, h]
  · have h1 : oreg.add_objective a =
        { objectives := oreg.objectives ++ [a]
        , index := insertA oreg.index a.objective_id a
        , store := saveObjectivesJson (oreg.objectives ++ [a]) } := by
      simp [ObjectiveRegistry.add_objective, h]
    rw [h1]
    have h2 :
        containsA (insertA oreg.index a.objective_id a) b.objective_id =
          true := by
      rw [hid, containsA_insertA]
      simp
    simp [ObjectiveRegistry.add_objective, h2]

theorem add_variant_second_noop (vreg : VariantRegistry)
    (a b : ControlVariant) (hid : b.variant_id = a.variant_id) :
    (vreg.add_variant a).add_variant b = vreg.add_variant a := by
  by_cases h : containsA vreg.index a.variant_id
  · have h1 : vreg.add_variant a = vreg := by
      simp [VariantRegistry.add_variant, h]
    rw [h1]
    simp [VariantRegistry.add_variant, hid, h]
  · have h1 : vreg.add_variant a =
        { variants := vreg.variants ++ [a]
        , index := insertA vreg.index a.variant_id a
        , objective_index :=
            insertA vreg.objective_index a.objective_id
              (((lookupA vreg.objective_index a.objective_id).getD []) ++ [a])
        , store := vreg.variants ++ [a] } := by
      simp [VariantRegistry.add_variant, h]
    rw [h1]
    have h2 :
        containsA (insertA vreg.index a.variant_id a) b.variant_id =
          true := by
      rw [hid, containsA_insertA]
      simp
    simp [VariantRegistry.add_variant, h2]

theorem add_objective_count_one (oreg : ObjectiveRegistry)
    (a : ControlObjective) (hwf : oreg.Wf) :
    (((oreg.add_objective a).objectives.map
        (fun o => o.objective_id)).count a.objective_id) = 1 := by
  obtain ⟨hidx, hnd⟩ := hwf
  by_cases h : containsA oreg.index a.objective_id
  · have h1 : oreg.add_objective a = oreg := by
      simp [ObjectiveRegistry.add_objective, h]
    rw [h1]
    have hmem : a.objective_id ∈
        oreg.objectives.map (fun o => o.objective_id) := by
      rw [hidx, containsA_buildObjectiveIndex] at h
      rcases List.any_eq_true.mp h with ⟨o, ho, heq⟩
      exact List.mem_map.mpr ⟨o, ho, by simpa using heq⟩
    have hle := List.nodup_iff_count_le_one.mp hnd a.objective_id
    have hpos := List.count_pos_iff.mpr hmem
    omega
  · have h1 : (oreg.add_objective a).objectives =
        oreg.objectives ++ [a] := by
      simp [ObjectiveRegistry.add_objective, h]
    have hnotmem : a.objective_id ∉
        oreg.objectives.map (fun o => o.objective_id) := by
      intro hmem
      rcases List.mem_map.mp hmem with ⟨o, ho, heq⟩
      have : oreg.objectives.any (fun o => o.objective_id = a.objective_id)
          = true :=
        List.any_eq_true.mpr ⟨o, ho, by simpa using heq⟩
      rw [hidx, containsA_buildObjectiveIndex] at h
      exact absurd this (by simpa using h)
    rw [h1]
    simp [List.count_append, List.count_eq_zero.mpr hnotmem]

theorem add_variant_count_one (vreg : VariantRegistry)
    (a : ControlVariant) (hwf : vreg.Wf) :
    (((vreg.add_variant a).variants.map
        (fun v => v.variant_id)).count a.variant_id) = 1 := by
  obtain ⟨hidx, hnd⟩ := hwf
  by_cases h : containsA vreg.index a.variant_id
  · have h1 : vreg.add_variant a = vreg := by
      simp [VariantRegistry.add_variant, h]
    rw [h1]
    have hmem : a.variant_id ∈
        vreg.variants.map (fun v => v.variant_id) := by
      rw [hidx, containsA_buildVariantIndex] at h
      rcases List.any_eq_true.mp h with ⟨v, hv, heq⟩
      exact List.mem_map.mpr ⟨v, hv, by simpa using heq⟩
    have hle := List.nodup_iff_count_le_one.mp hnd a.variant_id
    have hpos := List.count_pos_iff.mpr hmem
    omega
  · have h1 : (vreg.add_variant a).variants = vreg.variants ++ [a] := by
      simp [VariantRegistry.add_variant, h]
    have hnotmem : a.variant_id ∉
        vreg.variants.map (fun v => v.variant_id) := by
      intro hmem
      rcases List.mem_map.mp hmem with ⟨v, hv, heq⟩
      have : vreg.variants.any (fun v => v.variant_id = a.variant_id)
          = true :=
        List.any_eq_true.mpr ⟨v, hv, by simpa using heq⟩
      rw [hidx, containsA_buildVariantIndex] at h
      exact absurd this (by simpa using h)
    rw [h1]
    simp [List.count_append, List.count_eq_zero.mpr hnotmem]

/-- Claim C6 (confirmed): on a well-formed registry, adding twice with the
same ID leaves exactly one stored copy of that ID, and the second add is a
no-op: sequence, ID map, secondary index and persisted store (hence the
persisted entity for that ID) are all unchanged.  Both registries. -/
theorem C6_idempotent_registration :
    ∀ (oreg : ObjectiveRegistry) (a b : ControlObjective)
        (vreg : VariantRegistry) (va vb : ControlVariant),
      oreg.Wf → b.objective_id = a.objective_id →
      vreg.Wf → vb.variant_id = va.variant_id →
      ((oreg.add_objective a).add_objective b = oreg.add_objective a) ∧
      (((oreg.add_objective a).objectives.map
          (fun o => o.objective_id)).count a.objective_id = 1) ∧
      ((vreg.add_variant va).add_variant vb = vreg.add_variant va) ∧
      (((vreg.add_variant va).variants.map
          (fun v => v.variant_id)).count va.variant_id = 1) := by
  intro oreg a b vreg va vb howf hoid hvwf hvid
  exact
    ⟨add_objective_second_noop oreg a b hoid,
     add_objective_count_one oreg a howf,
     add_variant_second_noop vreg va vb hvid,
     add_variant_count_one vreg va hvwf⟩

/-- Claim C6 witness: double registration of the scenario objective and
the TRANS variant on the empty registries. -/
theorem C6_idempotent_registration_witness :
    ((ObjectiveRegistry.emptyReg.add_objective objDataProt1).add_objective
        objDataProt1 =
      ObjectiveRegistry.emptyReg.add_objective objDataProt1) ∧
    (((ObjectiveRegistry.emptyReg.add_objective objDataProt1).objectives.map
        (fun o => o.objective_id)).count objDataProt1.objective_id = 1) ∧
    ((VariantRegistry.emptyReg.add_variant cvTrans1).add_variant cvTrans1 =
      VariantRegistry.emptyReg.add_variant cvTrans1) ∧
    (((VariantRegistry.emptyReg.add_variant cvTrans1).variants.map
        (fun v => v.variant_id)).count cvTrans1.variant_id = 1) :=
  C6_idempotent_registration ObjectiveRegistry.emptyReg objDataProt1
    objDataProt1 VariantRegistry.emptyReg cvTrans1 cvTrans1
    ⟨rfl, List.nodup_nil⟩ rfl ⟨rfl, List.nodup_nil⟩ rfl

theorem parseStrList_map (l : List String) :
    parseStrList (l.map Json.str) = some l := by
  induction l with
  | nil => rfl
  | cons s rest ih => simp [parseStrList, ih]

theorem parse_model_dump (o : ControlObjective) :
    parseControlObjective o.model_dump = some o := by
  obtain ⟨oid, oname, odesc, odom, ointent, olinked, orat⟩ := o
  cases ointent <;> cases orat <;>
    simp [ControlObjective.model_dump, parseControlObjective, lookupA,
      dumpOptStr, parseOptStrField, parseStrList_map]

theorem parseObjectiveList_map (l : List ControlObjective) :
    parseObjectiveList (l.map ControlObjective.model_dump) = some l := by
  induction l with
  | nil => rfl
  | cons o rest ih =>
    simp [parseObjectiveList, parse_model_dump, ih]

theorem load_save (l : List ControlObjective) :
    ObjectiveRegistry.load (saveObjectivesJson l) =
      some
        { objectives := l
        , index := buildObjectiveIndex l
        , store := saveObjectivesJson l } := by
  simp [ObjectiveRegistry.load, saveObjectivesJson, loadObjectivesJson,
    lookupA, parseObjectiveList_map]

theorem buildObjectiveIndex_append_one (l : List ControlObjective)
    (o : ControlObjective) :
    buildObjectiveIndex (l ++ [o]) =
      insertA (buildObjectiveIndex l) o.objective_id o := by
  simp [buildObjectiveIndex, List.foldl_append]

theorem foldl_add_from (objs : List ControlObjective) :
    ∀ (done : List ControlObjective),
      (((done ++ objs).map (fun o => o.objective_id)).Nodup) →
      objs.foldl ObjectiveRegistry.add_objective
          { objectives := done
          , index := buildObjectiveIndex done
          , store := saveObjectivesJson done } =
        { objectives := done ++ objs
        , index := buildObjectiveIndex (done ++ objs)
        , store := saveObjectivesJson (done ++ objs) } := by
  induction objs with
  | nil => intro done h; simp
  | cons o rest ih =>
    intro done h
    have hno : o.objective_id ∉ done.map (fun x => x.objective_id) := by
      intro hmem
      rw [List.map_append] at h
      exact (List.nodup_append.mp h).2.2 hmem (by simp)
    have hfresh :
        containsA (buildObjectiveIndex done) o.objective_id = false := by
      rw [containsA_buildObjectiveIndex]
      rcases hA : done.any (fun x => x.objective_id = o.objective_id) with _ | _
      · rfl
      · rcases List.any_eq_true.mp hA with ⟨x, hx, heq⟩
        exact absurd
          (List.mem_map.mpr ⟨x, hx, by simpa using heq⟩) hno
    have hstep :
        ObjectiveRegistry.add_objective
            { objectives := done
            , index := buildObjectiveIndex done
            , store := saveObjectivesJson done } o =
          { objectives := done ++ [o]
          , index := buildObjectiveIndex (done ++ [o])
          , store := saveObjectivesJson (done ++ [o]) } := by
      simp [ObjectiveRegistry.add_objective, hfresh,
        buildObjectiveIndex_append_one]
    rw [List.foldl_cons, hstep,
      ih (done ++ [o]) (by simpa using h)]
    have hL : (done ++ [o]) ++ rest = done ++ o :: rest := by simp
    rw [hL]

/-- Claim C7 (confirmed): writing a sequence of objectives with pairwise
distinct IDs into a fresh registry via add, then constructing a fresh
registry from the resulting backing store, reproduces exactly those
objectives — same IDs, same field values, same order — because every add
rewrites the full serialized sequence and loading validates it back
unchanged. -/
theorem C7_persistence_round_trip :
    ∀ (objs : List ControlObjective),
      ((objs.map (fun o => o.objective_id)).Nodup) →
      (objs.foldl ObjectiveRegistry.add_objective
          ObjectiveRegistry.emptyReg).objectives = objs ∧
      ObjectiveRegistry.load
          ((objs.foldl ObjectiveRegistry.add_objective
            ObjectiveRegistry.emptyReg).store) =
        some
          (objs.foldl ObjectiveRegistry.add_objective
            ObjectiveRegistry.emptyReg) := by
  intro objs h
  have hE : ObjectiveRegistry.emptyReg =
      { objectives := ([] : List ControlObjective)
      , index := buildObjectiveIndex []
      , store := saveObjectivesJson [] } := rfl
  have hfold := foldl_add_from objs [] (by simpa using h)
  rw [hE, hfold]
  simpa using load_save objs

/-- Claim C7 witness: two concrete objectives written and reloaded. -/
theorem C7_persistence_round_trip_witness :
    ([objDataProt1, { objDataProt1 with objective_id := "OBJ-X-1" }].foldl
        ObjectiveRegistry.add_objective ObjectiveRegistry.emptyReg).objectives
      = [objDataProt1, { objDataProt1 with objective_id := "OBJ-X-1" }] ∧
    ObjectiveRegistry.load
        (([objDataProt1,
            { objDataProt1 with objective_id := "OBJ-X-1" }].foldl
          ObjectiveRegistry.add_objective ObjectiveRegistry.emptyReg).store) =
      some
        ([objDataProt1, { objDataProt1 with objective_id := "OBJ-X-1" }].foldl
          ObjectiveRegistry.add_objective ObjectiveRegistry.emptyReg) :=
  C7_persistence_round_trip
    [objDataProt1, { objDataProt1 with objective_id := "OBJ-X-1" }]
    (by decide)

end ControlGen
